import Mathlib

/-!
Shallow embedding of the streamdeck-manager core (src/lib.py): the Key/Page
data model, the Manager event/render state machine, and the Parser (config
builder).  Device I/O, PIL image composition and the logging sink are external
collaborators; images are modelled symbolically by the (icon path, label) pair
handed to the renderer, and log statements are modelled only where they have a
semantic effect (eager attribute accesses inside format arguments).
-/

/-- Python exception classes that the embedded code can raise. -/
inductive PyErr where
  | keyError
  | indexError
  | attributeError
  | typeError
  | ioError
  | valueError
deriving DecidableEq, Repr

/-- Python values that can flow into `Key.state` and `Manager.current_page`:
`None`, a string (page name), or a function-config dict reduced to its consumed
`function_name` field. -/
inductive PyVal where
  | none
  | str (s : String)
  | fcfg (functionName : String)
deriving DecidableEq, Repr

/-- The callback functions that `lib.py` wires into keys: the module-level
default `EMPTY_ON_PRESS`, and the Parser's folder-change, empty and
function callbacks.  The function callback's behaviour lives in externally
loaded user code and is supplied as a parameter (`ExtFun`) at the call site. -/
inductive Callback where
  | emptyOnPress
  | folderChange
  | emptyCb
  | functionCb
deriving DecidableEq, Repr

/-- Key (lib.py lines 58-123): one button's two-state visual configuration,
opaque state and callback.  `pressed` always starts `false` (line 83). -/
structure Key where
  name : String
  icon_pressed : Option String
  icon_released : Option String
  label_pressed : Option String
  label_released : Option String
  state : PyVal
  on_press_fun : Callback
  pressed : Bool
deriving DecidableEq, Repr

/-- Key.__init__, which always initialises `pressed := false`.  The source's
defaults are STANDARD_ICON = None and STANDARD_LABEL = "key". -/
def Key.init (name : String) (icon_pressed icon_released : Option String)
    (label_pressed label_released : Option String)
    (state : PyVal) (on_press : Callback) : Key :=
  ⟨name, icon_pressed, icon_released, label_pressed, label_released,
   state, on_press, false⟩

/-- Page (lib.py lines 126-169): a name plus a slot list of optional Keys. -/
structure Page where
  name : String
  deck_keys : List (Option Key)
deriving DecidableEq, Repr

/-- Page.__init__: `deck_keys = [None] * (rows * cols)` (line 132). -/
def Page.init (name : String) (dims : Nat × Nat) : Page :=
  ⟨name, List.replicate (dims.1 * dims.2) Option.none⟩

/-- Python sequence-index normalisation: a negative index counts from the end
of the sequence. -/
def pyNorm (len : Nat) (i : Int) : Int :=
  if i < 0 then i + len else i

/-- Python `l[i]` on a list: negative indices wrap once from the end; indices
that remain out of range raise IndexError. -/
def pyIndex (l : List α) (i : Int) : Except PyErr α :=
  let j := pyNorm l.length i
  if h : 0 ≤ j ∧ j < (l.length : Int) then
    Except.ok (l.get ⟨j.toNat, by omega⟩)
  else
    Except.error PyErr.indexError

/-- Python `l[i] = v` on a list: same index semantics as `pyIndex`. -/
def pyListSet (l : List α) (i : Int) (v : α) : Except PyErr (List α) :=
  let j := pyNorm l.length i
  if 0 ≤ j ∧ j < (l.length : Int) then
    Except.ok (l.set j.toNat v)
  else
    Except.error PyErr.indexError

/-- The styling dict returned by `Page.get_key_style`. -/
structure KeyStyle where
  name : Option String
  icon : Option String
  label : Option String
deriving DecidableEq, Repr

/-- Page.get_key_style (lines 142-158): reads slot `key`; a `None` slot yields
the null triple, an assigned slot yields the pressed- or released-variant
selected by the Key's `pressed` flag. -/
def Page.get_key_style (p : Page) (key : Int) : Except PyErr KeyStyle :=
  match pyIndex p.deck_keys key with
  | Except.error e => Except.error e
  | Except.ok Option.none =>
      Except.ok ⟨Option.none, Option.none, Option.none⟩
  | Except.ok (Option.some k) =>
      Except.ok ⟨Option.some k.name,
                 if k.pressed then k.icon_pressed else k.icon_released,
                 if k.pressed then k.label_pressed else k.label_released⟩

/-- Association-list lookup with first-match semantics, modelling a Python
dict with string keys (the builder never creates duplicate keys). -/
def assocGet (l : List (String × α)) (k : String) : Option α :=
  match l with
  | [] => Option.none
  | (k', v) :: rest => if k' = k then Option.some v else assocGet rest k

/-- Python `d[k] = v` on a dict: replace in place if present (insertion order
is preserved), otherwise append. -/
def assocSet (l : List (String × α)) (k : String) (v : α) : List (String × α) :=
  match l with
  | [] => [(k, v)]
  | (k', v') :: rest =>
      if k' = k then (k, v) :: rest else (k', v') :: assocSet rest k v

/-- The page store: Python dict from page name to Page. -/
abbrev Stash := List (String × Page)

/-- Manager state (lib.py lines 256-270) restricted to the fields the core
mutates or reads: the asset root, the page store and the current-page cursor.
The device dimensions `deck.key_layout()` are a fixed device property and are
passed separately; font/brightness only feed the external image collaborator. -/
structure Mgr where
  config_path : String
  page_stash : Stash
  current_page : PyVal
deriving DecidableEq, Repr

/-- Manager.__init__ state effect (lines 256-270): a fresh stash holding the
default page under "main" and `current_page = "main"`.  The constructor also
opens the device and performs a first `update_keys` render of the all-empty
default page, which does not alter this state. -/
def manager_init (config_path : String) (dims : Nat × Nat) : Mgr :=
  ⟨config_path, [("main", Page.init "Default Page" dims)], PyVal.str "main"⟩

/-- Externally loaded user callback code (Parser.__function_callback body):
looked up by function name, receives the key and the manager, may mutate the
manager arbitrarily and may raise. -/
abbrev ExtFun := String → Key → Mgr → Mgr × Except PyErr Unit

/-- Semantics of the wired callbacks.  `__folder_change_callback`
(lines 275-284): on press only logs, on release assigns `key.state` to
`deck.current_page` unvalidated.  `__function_callback` (lines 292-297)
subscripts `key.state["function_name"]` (TypeError on a non-dict state) and
defers to external user code. -/
def runCallback (ext : ExtFun) (k : Key) (m : Mgr) : Mgr × Except PyErr Unit :=
  match k.on_press_fun with
  | Callback.emptyOnPress => (m, Except.ok ())
  | Callback.emptyCb => (m, Except.ok ())
  | Callback.folderChange =>
      if k.pressed then (m, Except.ok ())
      else ({ m with current_page := k.state }, Except.ok ())
  | Callback.functionCb =>
      match k.state with
      | PyVal.fcfg fname => ext fname k m
      | _ => (m, Except.error PyErr.typeError)

/-- Observable actions of one event, used to state ordering properties:
the Key callback being fired, and the start of a full-page render pass
recording which page is current and which slot indices it iterates. -/
inductive EvtAction where
  | cbRun (keyName : String)
  | render (page : PyVal) (indices : List Nat)
deriving DecidableEq, Repr

/-- Result of `Page.on_press`: manager state after the callback, the outcome,
and the emitted actions. -/
structure CbOutcome where
  mgr : Mgr
  result : Except PyErr Unit
  trace : List EvtAction
deriving Repr

/-- Page.on_press (lines 160-169): if slot `key` holds a Key, fire its
callback (via Key.on_press, which only adds an info log).  The `None` branch
attempts a "not defined" warning, but the warning's format arguments eagerly
call `deck_man.key_layout()` — and `deck_man` is the Manager (the only call
site, line 189, passes `self`), which has no `key_layout` attribute — so the
branch raises AttributeError before any warning is logged, with no state
mutation. -/
def page_on_press (ext : ExtFun) (p : Page) (key : Int) (m : Mgr) : CbOutcome :=
  match pyIndex p.deck_keys key with
  | Except.error e => ⟨m, Except.error e, []⟩
  | Except.ok (Option.some k) =>
      let r := runCallback ext k m
      ⟨r.1, r.2, [EvtAction.cbRun k.name]⟩
  | Except.ok Option.none => ⟨m, Except.error PyErr.attributeError, []⟩

/-- Symbolic image: the (icon path, label) pair handed to
`Manager.__render_key_image`; its pixel composition is the external image
collaborator's concern. -/
structure DeckImage where
  icon : Option String
  label : Option String
deriving DecidableEq, Repr

/-- Path join for `os.path.join(config_path, icon)` with a relative icon. -/
def joinPath (base file : String) : String :=
  base ++ "/" ++ file

/-- Error-propagating map, the effect of a `for` loop whose body may raise:
the first raise aborts the rest of the loop. -/
def mapExceptList (f : α → Except PyErr β) : List α → Except PyErr (List β)
  | [] => Except.ok []
  | a :: rest =>
      match f a with
      | Except.error e => Except.error e
      | Except.ok b =>
          match mapExceptList f rest with
          | Except.error e => Except.error e
          | Except.ok bs => Except.ok (b :: bs)

/-- Manager.__update_key_image (lines 204-227): bounds-guard against the
device key count, then for an assigned slot join the selected icon onto the
asset root (a TypeError when the icon is None, since `os.path.join` rejects
None), require the file to exist on disk (else log critical and raise
IOError), and render; an empty slot renders the blank canvas.  `fs` is the
set of paths that exist on disk. -/
def update_key_image (fs : List String) (dims : Nat × Nat) (m : Mgr)
    (key : Int) : Except PyErr DeckImage :=
  let n_keys := dims.1 * dims.2
  if key < (n_keys : Int) then
    match m.current_page with
    | PyVal.str cp =>
        match assocGet m.page_stash cp with
        | Option.none => Except.error PyErr.keyError
        | Option.some page =>
            match pyIndex page.deck_keys key with
            | Except.error e => Except.error e
            | Except.ok (Option.some _) =>
                match page.get_key_style key with
                | Except.error e => Except.error e
                | Except.ok style =>
                    match style.icon with
                    | Option.none => Except.error PyErr.typeError
                    | Option.some icon =>
                        let icon_path := joinPath m.config_path icon
                        if icon_path ∈ fs then
                          Except.ok ⟨Option.some icon_path, style.label⟩
                        else Except.error PyErr.ioError
            | Except.ok Option.none =>
                Except.ok ⟨Option.none, Option.none⟩
    | PyVal.none => Except.error PyErr.keyError
    | PyVal.fcfg _ => Except.error PyErr.typeError
  else Except.error PyErr.valueError

/-- Manager.update_keys (lines 193-201): render every slot index of the
current page in order; a raise from any slot aborts the pass. -/
def update_keys (fs : List String) (dims : Nat × Nat) (m : Mgr) :
    Except PyErr (List DeckImage) :=
  mapExceptList (fun i : Nat => update_key_image fs dims m (i : Int))
    (List.range (dims.1 * dims.2))

/-- Result of one device event: final manager state (Python object mutations
persist even when an exception propagates), the outcome, and emitted actions. -/
structure EventOutcome where
  mgr : Mgr
  result : Except PyErr (List DeckImage)
  trace : List EvtAction
deriving Repr

/-- Manager.__key_change_callback (lines 173-190), the `handle_event` entry
point.  For an event on this deck: the debug log at line 183 eagerly evaluates
`deck_keys[key].name`, so a missing current page raises KeyError, an
out-of-range index raises IndexError and an empty slot raises AttributeError
before any mutation; then line 188 sets the Key's `pressed`, line 189
dispatches through Page.on_press, and line 190 runs the full re-render. -/
def key_change_callback (ext : ExtFun) (fs : List String) (dims : Nat × Nat)
    (deckEq : Bool) (m : Mgr) (key : Int) (st : Bool) : EventOutcome :=
  if deckEq then
    match m.current_page with
    | PyVal.str cp =>
        match assocGet m.page_stash cp with
        | Option.none => ⟨m, Except.error PyErr.keyError, []⟩
        | Option.some page =>
            match pyIndex page.deck_keys key with
            | Except.error e => ⟨m, Except.error e, []⟩
            | Except.ok Option.none =>
                ⟨m, Except.error PyErr.attributeError, []⟩
            | Except.ok (Option.some k) =>
                match pyListSet page.deck_keys key
                    (Option.some { k with pressed := st }) with
                | Except.error e => ⟨m, Except.error e, []⟩
                | Except.ok keys' =>
                    let page' : Page := { page with deck_keys := keys' }
                    let m1 : Mgr :=
                      { m with page_stash := assocSet m.page_stash cp page' }
                    let c := page_on_press ext page' key m1
                    match c.result with
                    | Except.error e => ⟨c.mgr, Except.error e, c.trace⟩
                    | Except.ok _ =>
                        let tr := c.trace ++
                          [EvtAction.render c.mgr.current_page
                            (List.range (dims.1 * dims.2))]
                        match update_keys fs dims c.mgr with
                        | Except.error e => ⟨c.mgr, Except.error e, tr⟩
                        | Except.ok imgs => ⟨c.mgr, Except.ok imgs, tr⟩
    | PyVal.none => ⟨m, Except.error PyErr.keyError, []⟩
    | PyVal.fcfg _ => ⟨m, Except.error PyErr.typeError, []⟩
  else ⟨m, Except.ok [], []⟩

/-!
Parser (lib.py lines 273-414): the config builder.  The JSON tree is embedded
as a mutual inductive; a key node's optional `img`/`img_on`/`img_off` and
`label`/`label_on`/`label_off` entries are `Option` fields recording presence.
-/

mutual
/-- The type-specific payload of a key node: `folder` carries a nested page
node, `function` carries its `function_config` reduced to the consumed
`function_name` field. -/
inductive KeyKind where
  | folder (sub : PageNode)
  | empty
  | function (functionName : String)

/-- One entry of a page's `keys` list in the config tree. -/
inductive KeyNode where
  | mk (name : String) (kind : KeyKind)
      (img img_on img_off label label_on label_off : Option String)

/-- The ordered `keys` list of a page node. -/
inductive KeyNodes where
  | nil
  | cons (k : KeyNode) (rest : KeyNodes)

/-- A page node of the config tree: `{name, keys: [...]}`. -/
inductive PageNode where
  | mk (name : String) (keys : KeyNodes)
end

def KeyNode.name : KeyNode → String
  | .mk n _ _ _ _ _ _ _ => n

def KeyNode.kind : KeyNode → KeyKind
  | .mk _ kd _ _ _ _ _ _ => kd

def KeyNode.img : KeyNode → Option String
  | .mk _ _ i _ _ _ _ _ => i

def KeyNode.img_on : KeyNode → Option String
  | .mk _ _ _ i _ _ _ _ => i

def KeyNode.img_off : KeyNode → Option String
  | .mk _ _ _ _ i _ _ _ => i

def KeyNode.label : KeyNode → Option String
  | .mk _ _ _ _ _ l _ _ => l

def KeyNode.label_on : KeyNode → Option String
  | .mk _ _ _ _ _ _ l _ => l

def KeyNode.label_off : KeyNode → Option String
  | .mk _ _ _ _ _ _ _ l => l

def PageNode.name : PageNode → String
  | .mk n _ => n

def PageNode.keys : PageNode → KeyNodes
  | .mk _ ks => ks

/-- Parser configuration state after `__init__` resolved the defaults
(lines 399-409): the two folder icons and the resolved default icon/label. -/
structure ParserEnv where
  folder_up_img : String
  folder_img : String
  default_img : Option String
  default_label : Option String
deriving DecidableEq, Repr

/-- Parser.__get_callback (lines 300-309): callback function and state object
for a key node; a folder key's state is `key["folder"]["name"]`. -/
def get_callback : KeyKind → Callback × PyVal
  | KeyKind.folder sub => (Callback.folderChange, PyVal.str sub.name)
  | KeyKind.empty => (Callback.emptyCb, PyVal.none)
  | KeyKind.function f => (Callback.functionCb, PyVal.fcfg f)

/-- Icon defaulting for a non-folder key (lines 342-353), pressed variant:
`img` if present (applied to both variants), else `img_on`, else the resolved
default icon. -/
def resolveImgOn (env : ParserEnv) (k : KeyNode) : Option String :=
  match k.img with
  | Option.some v => Option.some v
  | Option.none =>
      match k.img_on with
      | Option.some v => Option.some v
      | Option.none => env.default_img

/-- Icon defaulting, released variant (lines 342-353). -/
def resolveImgOff (env : ParserEnv) (k : KeyNode) : Option String :=
  match k.img with
  | Option.some v => Option.some v
  | Option.none =>
      match k.img_off with
      | Option.some v => Option.some v
      | Option.none => env.default_img

/-- Label defaulting, pressed variant (lines 354-365): `label` if present
(applied to both variants), else `label_on`, else the resolved default. -/
def resolveLabelOn (env : ParserEnv) (k : KeyNode) : Option String :=
  match k.label with
  | Option.some v => Option.some v
  | Option.none =>
      match k.label_on with
      | Option.some v => Option.some v
      | Option.none => env.default_label

/-- Label defaulting, released variant (lines 354-365). -/
def resolveLabelOff (env : ParserEnv) (k : KeyNode) : Option String :=
  match k.label with
  | Option.some v => Option.some v
  | Option.none =>
      match k.label_off with
      | Option.some v => Option.some v
      | Option.none => env.default_label

/-- Effect of `self.deck_manager.page_stash[pname].deck_keys[index] = key`
(lines 324 and 375): the page is looked up by name on every write, so a write
lands on whatever page currently sits under that name.  The builder inserts
the page before any write, so the lookup always succeeds; the source's index
is guarded by `index < n_keys` and builder-created pages have exactly
`n_keys` slots, so the list assignment is in range. -/
def stashWriteSlot (stash : Stash) (pname : String) (idx : Nat) (k : Key) :
    Stash :=
  match assocGet stash pname with
  | Option.some pg =>
      assocSet stash pname
        { pg with deck_keys := pg.deck_keys.set idx (Option.some k) }
  | Option.none => stash

mutual
/-- Parser.__populate_pages (lines 311-386): insert a fresh page under the
node's name, insert the automatic "up" folder key at slot 0 when the page has
a parent, then process the node's key list. -/
def populate_pages (env : ParserEnv) (dims : Nat × Nat) (stash : Stash)
    (p : PageNode) (parent : Option String) : Stash :=
  match p with
  | PageNode.mk pname pkeys =>
      let stash1 := assocSet stash pname (Page.init pname dims)
      let stash2 :=
        match parent with
        | Option.some par =>
            stashWriteSlot stash1 pname 0
              (Key.init (pname ++ "0")
                (Option.some env.folder_up_img) (Option.some env.folder_up_img)
                (Option.some "up") (Option.some "up")
                (PyVal.str par) Callback.folderChange)
        | Option.none => stash1
      populate_keys env dims stash2 pname
        (match parent with | Option.some _ => true | Option.none => false)
        0 pkeys

/-- One iteration body of the key loop (lines 336-383) for an in-range slot
`index`: a folder entry first recursively materializes its sub-page and gets
the folder icon for both variants; other entries get the resolved icons; all
get the resolved labels and the callback/state pair from __get_callback. -/
def populate_one (env : ParserEnv) (dims : Nat × Nat) (stash : Stash)
    (pname : String) (index : Nat) (k : KeyNode) : Stash :=
  match k with
  | KeyNode.mk _ (KeyKind.folder sub) _ _ _ _ _ _ =>
      let stashF := populate_pages env dims stash sub (Option.some pname)
      stashWriteSlot stashF pname index
        (Key.init k.name
          (Option.some env.folder_img) (Option.some env.folder_img)
          (resolveLabelOn env k) (resolveLabelOff env k)
          (get_callback k.kind).2 (get_callback k.kind).1)
  | KeyNode.mk _ KeyKind.empty _ _ _ _ _ _ =>
      stashWriteSlot stash pname index
        (Key.init k.name
          (resolveImgOn env k) (resolveImgOff env k)
          (resolveLabelOn env k) (resolveLabelOff env k)
          (get_callback k.kind).2 (get_callback k.kind).1)
  | KeyNode.mk _ (KeyKind.function _) _ _ _ _ _ _ =>
      stashWriteSlot stash pname index
        (Key.init k.name
          (resolveImgOn env k) (resolveImgOff env k)
          (resolveLabelOn env k) (resolveLabelOff env k)
          (get_callback k.kind).2 (get_callback k.kind).1)

/-- The `for i in range(len(page["keys"]))` loop of __populate_pages
(lines 333-386): slot index is `i`, shifted by one when the page has a
parent; an index beyond the device key count is logged and dropped. -/
def populate_keys (env : ParserEnv) (dims : Nat × Nat) (stash : Stash)
    (pname : String) (hasParent : Bool) (i : Nat) (ks : KeyNodes) : Stash :=
  match ks with
  | KeyNodes.nil => stash
  | KeyNodes.cons k rest =>
      let index := if hasParent then i + 1 else i
      let stash' :=
        if index < dims.1 * dims.2 then
          populate_one env dims stash pname index k
        else stash
      populate_keys env dims stash' pname hasParent (i + 1) rest
end

/-- Top-level config document: `page`, `folder_up_img` and `folder_img` are
required by the subset check at line 399; the three `default_*` fields record
the presence and value of the optional top-level entries, including the
`default_keys` entry that line 401 actually reads. -/
structure TopConfig where
  page : PageNode
  folder_up_img : String
  folder_img : String
  default_img : Option String
  default_keys : Option String
  default_label : Option String

/-- Resolution of `self.default_img` (lines 400-403): when the `default_img`
key is present the source reads `json_obj["default_keys"]`, raising KeyError
when that entry is absent; when `default_img` is absent the component default
STANDARD_ICON (None) is used. -/
def resolve_default_img (c : TopConfig) : Except PyErr (Option String) :=
  match c.default_img with
  | Option.some _ =>
      match c.default_keys with
      | Option.some v => Except.ok (Option.some v)
      | Option.none => Except.error PyErr.keyError
  | Option.none => Except.ok Option.none

/-- Resolution of `self.default_label` (lines 404-407): the config value when
present, else STANDARD_LABEL ("key"). -/
def resolve_default_label (c : TopConfig) : Option String :=
  match c.default_label with
  | Option.some v => Option.some v
  | Option.none => Option.some "key"

/-- Parser.__init__ (lines 388-413): construct the Manager, resolve the
defaults, rename the root page node to "main", populate the page store and set
the current page to the root's (renamed) name.  Line 414 then runs one
`update_keys` render pass, which does not alter this state; it is the
separately embedded `update_keys`. -/
def parser_build (config_path : String) (dims : Nat × Nat) (c : TopConfig) :
    Except PyErr Mgr :=
  let m0 := manager_init config_path dims
  match resolve_default_img c with
  | Except.error e => Except.error e
  | Except.ok dimg =>
      let env : ParserEnv :=
        ⟨c.folder_up_img, c.folder_img, dimg, resolve_default_label c⟩
      let root := PageNode.mk "main" c.page.keys
      let stash := populate_pages env dims m0.page_stash root Option.none
      Except.ok { m0 with page_stash := stash,
                          current_page := PyVal.str "main" }

mutual
/-- All page names materialized by `populate_pages` on this node: the node's
own name plus, recursively, those of the sub-pages of its folder entries. -/
def PageNode.treeNames : PageNode → List String
  | PageNode.mk n ks => n :: KeyNodes.subNames ks

/-- Page names materialized by one key entry: the sub-tree of a folder entry,
nothing otherwise. -/
def KeyNode.subTree : KeyNode → List String
  | KeyNode.mk _ (KeyKind.folder sub) _ _ _ _ _ _ => sub.treeNames
  | KeyNode.mk _ KeyKind.empty _ _ _ _ _ _ => []
  | KeyNode.mk _ (KeyKind.function _) _ _ _ _ _ _ => []

/-- All page names materialized by the recursive folder entries of a key
list. -/
def KeyNodes.subNames : KeyNodes → List String
  | KeyNodes.nil => []
  | KeyNodes.cons k rest => k.subTree ++ KeyNodes.subNames rest
end

/-!
Helper lemmas about the Python indexing and dict primitives.
-/

theorem pyIndex_natCast_lt {α : Type} {l : List α} {i : Nat} (h : i < l.length) :
    pyIndex l (i : Int) = Except.ok (l.get ⟨i, h⟩) := by
  have h0 : ¬ ((i : Int) < 0) := by omega
  have hc : 0 ≤ pyNorm l.length (i : Int) ∧
      pyNorm l.length (i : Int) < (l.length : Int) := by
    simp only [pyNorm, if_neg h0]
    constructor <;> omega
  simp only [pyIndex, dif_pos hc]
  congr 1

theorem pyListSet_natCast_lt {α : Type} {l : List α} {i : Nat} (v : α)
    (h : i < l.length) :
    pyListSet l (i : Int) v = Except.ok (l.set i v) := by
  have h0 : ¬ ((i : Int) < 0) := by omega
  have hc : 0 ≤ pyNorm l.length (i : Int) ∧
      pyNorm l.length (i : Int) < (l.length : Int) := by
    simp only [pyNorm, if_neg h0]
    constructor <;> omega
  simp only [pyListSet, if_pos hc]
  congr 2

theorem pyListSet_ok_pyIndex {α : Type} {l l' : List α} {i : Int} {v : α}
    (h : pyListSet l i v = Except.ok l') : pyIndex l' i = Except.ok v := by
  by_cases hc : 0 ≤ pyNorm l.length i ∧ pyNorm l.length i < (l.length : Int)
  · simp only [pyListSet, if_pos hc] at h
    cases h
    have hlen : (l.set (pyNorm l.length i).toNat v).length = l.length :=
      List.length_set _ _ _
    have hc' : 0 ≤ pyNorm (l.set (pyNorm l.length i).toNat v).length i ∧
        pyNorm (l.set (pyNorm l.length i).toNat v).length i <
          ((l.set (pyNorm l.length i).toNat v).length : Int) := by
      rw [hlen]; exact hc
    simp only [pyIndex, dif_pos hc']
    congr 1
    have : pyNorm (l.set (pyNorm l.length i).toNat v).length i
        = pyNorm l.length i := by rw [hlen]
    simp [this]
  · simp only [pyListSet, if_neg hc] at h
    cases h

theorem assocGet_assocSet_self {α : Type} (l : List (String × α)) (k : String)
    (v : α) : assocGet (assocSet l k v) k = Option.some v := by
  induction l with
  | nil => simp [assocGet, assocSet]
  | cons hd tl ih =>
      obtain ⟨k', v'⟩ := hd
      by_cases hk : k' = k
      · simp [assocGet, assocSet, hk]
      · simp [assocGet, assocSet, hk, ih]

theorem assocGet_assocSet_ne {α : Type} (l : List (String × α)) (k k' : String)
    (v : α) (hne : k' ≠ k) :
    assocGet (assocSet l k v) k' = assocGet l k' := by
  have hne' : ¬ (k = k') := fun h => hne h.symm
  induction l with
  | nil => simp [assocGet, assocSet, hne']
  | cons hd tl ih =>
      obtain ⟨k0, v0⟩ := hd
      by_cases hk : k0 = k
      · subst hk
        simp [assocGet, assocSet, hne']
      · simp only [assocSet, if_neg hk, assocGet]
        by_cases hk' : k0 = k' <;> simp [hk', ih]

theorem mapExceptList_error_of_mem {α β : Type} (f : α → Except PyErr β)
    {l : List α} {x : α} {e : PyErr} (hx : x ∈ l) (hf : f x = Except.error e) :
    ∃ e', mapExceptList f l = Except.error e' := by
  induction l with
  | nil => cases hx
  | cons a rest ih =>
      rcases List.mem_cons.mp hx with h | h
      · subst h
        exact ⟨e, by simp [mapExceptList, hf]⟩
      · rcases ih h with ⟨e', he'⟩
        simp only [mapExceptList]
        cases hfa : f a with
        | error ea => exact ⟨ea, rfl⟩
        | ok b => exact ⟨e', by simp [he']⟩

theorem pyIndex_ok_of_range {α : Type} {l : List α} {i : Int}
    (h1 : -(l.length : Int) ≤ i) (h2 : i < (l.length : Int)) :
    ∃ a, pyIndex l i = Except.ok a := by
  have hc : 0 ≤ pyNorm l.length i ∧ pyNorm l.length i < (l.length : Int) := by
    simp only [pyNorm]
    split <;> constructor <;> omega
  refine ⟨l.get ⟨(pyNorm l.length i).toNat, by omega⟩, ?_⟩
  simp only [pyIndex, dif_pos hc]

theorem pyIndex_error_of_out {α : Type} {l : List α} {i : Int}
    (h : i < -(l.length : Int) ∨ (l.length : Int) ≤ i) :
    pyIndex l i = Except.error PyErr.indexError := by
  have hc : ¬ (0 ≤ pyNorm l.length i ∧ pyNorm l.length i < (l.length : Int)) := by
    simp only [pyNorm]
    split <;> omega
  simp only [pyIndex, dif_neg hc]

/-- Characterization of one event on an assigned slot of the current page: the
debug-log accesses succeed, the Key's `pressed` flag is set first, the page
object seen by the dispatch is the mutated one, the callback runs on the
mutated state, and the render pass runs after the callback on the callback's
resulting manager state (its outcome is the event's outcome). -/
theorem kcc_assigned (ext : ExtFun) (fs : List String) (dims : Nat × Nat)
    (m : Mgr) (cp : String) (page : Page) (idx : Nat) (k : Key) (st : Bool)
    (hcp : m.current_page = PyVal.str cp)
    (hpg : assocGet m.page_stash cp = Option.some page)
    (hlt : idx < page.deck_keys.length)
    (hk : page.deck_keys.get ⟨idx, hlt⟩ = Option.some k) :
    key_change_callback ext fs dims true m (idx : Int) st =
      (let k' : Key := { k with pressed := st }
       let page' : Page :=
         { page with deck_keys := page.deck_keys.set idx (Option.some k') }
       let m1 : Mgr := { m with page_stash := assocSet m.page_stash cp page' }
       let r := runCallback ext k' m1
       ⟨r.1,
        match r.2 with
        | Except.error e => Except.error e
        | Except.ok _ => update_keys fs dims r.1,
        match r.2 with
        | Except.error _ => [EvtAction.cbRun k.name]
        | Except.ok _ =>
            [EvtAction.cbRun k.name,
             EvtAction.render r.1.current_page
               (List.range (dims.1 * dims.2))]⟩) := by
  have hidx : pyIndex page.deck_keys (idx : Int) = Except.ok (Option.some k) := by
    rw [pyIndex_natCast_lt hlt, hk]
  have hset : pyListSet page.deck_keys (idx : Int)
      (Option.some { k with pressed := st })
      = Except.ok (page.deck_keys.set idx
          (Option.some { k with pressed := st })) :=
    pyListSet_natCast_lt _ hlt
  have hidx' : pyIndex (page.deck_keys.set idx
      (Option.some { k with pressed := st })) (idx : Int)
      = Except.ok (Option.some { k with pressed := st }) :=
    pyListSet_ok_pyIndex hset
  simp only [key_change_callback, if_true, hcp, hpg, hidx, hset,
    page_on_press, hidx']
  generalize (runCallback ext ({ k with pressed := st })
      ({ config_path := m.config_path,
         page_stash := (assocSet m.page_stash cp
           ({ page with deck_keys := (page.deck_keys.set idx
             (Option.some ({ k with pressed := st }))) })),
         current_page := PyVal.str cp } : Mgr)) = r
  obtain ⟨m2, res⟩ := r
  cases res with
  | error e => rfl
  | ok u =>
      cases update_keys fs dims m2 <;> rfl

/-!
Concrete fixtures used by evaluation theorems and witnesses.
-/

/-- External user-callback environment that does nothing, for concrete runs. -/
def extId : ExtFun := fun _ _ m => (m, Except.ok ())

/-- A folder-navigation key as the Parser wires it, targeting `target`. -/
def kNav (target : String) : Key :=
  Key.init "nav" (Option.some "f.png") (Option.some "f.png")
    (Option.some "go") (Option.some "go") (PyVal.str target)
    Callback.folderChange

/-- One-slot page holding a folder key to "pageB". -/
def pgNav : Page := ⟨"main", [Option.some (kNav "pageB")]⟩

/-- Manager on `pgNav` with the target page present. -/
def mNav : Mgr :=
  ⟨"c", [("main", pgNav), ("pageB", ⟨"pageB", [Option.none]⟩)],
   PyVal.str "main"⟩

/-!
Claims.
-/

/-- C1: the claim says an event on an empty slot of the current page logs a
warning and returns without raising and without mutation.  The code instead
raises AttributeError at the failing input (slot 0 of the all-empty default
page) on two counts, both evaluated here: the Manager handler's line-183
debug log dereferences `deck_keys[key].name` on the `None` slot before
`Page.on_press` is ever reached, and even `Page.on_press`'s own `None`
branch — whose explicit guard and "is not defined" warning text show the
intended warn-and-no-op diagnostic — raises AttributeError inside the
warning's format arguments (`deck_man.key_layout()` on the Manager, which
has no such attribute).  Either way the manager state is left unmutated but
the event raises rather than warning. -/
theorem c1_empty_slot_event_crashes :
    key_change_callback extId [] (1, 1) true (manager_init "c" (1, 1)) 0 true
      = ⟨manager_init "c" (1, 1), Except.error PyErr.attributeError, []⟩
    ∧ page_on_press extId (Page.init "Default Page" (1, 1)) 0
        (manager_init "c" (1, 1))
      = ⟨manager_init "c" (1, 1), Except.error PyErr.attributeError, []⟩ :=
  ⟨rfl, rfl⟩

/-- C4: for a valid slot index holding an assigned Key, `get_key_style`
returns the pressed-variant icon and label iff the Key's `pressed` flag is
true and the released-variant otherwise (the icon and label fields are
universally quantified Options, covering all four set/unset combinations),
and the null triple for an empty slot; it is a pure function of the page. -/
theorem c4_get_key_style_variants (p : Page) (i : Nat) :
    (∀ k : Key, pyIndex p.deck_keys (i : Int) = Except.ok (Option.some k) →
      p.get_key_style (i : Int) = Except.ok
        ⟨Option.some k.name,
         if k.pressed then k.icon_pressed else k.icon_released,
         if k.pressed then k.label_pressed else k.label_released⟩)
    ∧ (pyIndex p.deck_keys (i : Int) = Except.ok Option.none →
      p.get_key_style (i : Int)
        = Except.ok ⟨Option.none, Option.none, Option.none⟩) := by
  constructor
  · intro k hk
    simp only [Page.get_key_style, hk]
  · intro hk
    simp only [Page.get_key_style, hk]

/-- A pressed key with pressed-icon set and pressed-label unset, for the C4
witness. -/
def kStyleEx : Key :=
  ⟨"k", Option.some "on.png", Option.some "off.png",
   Option.none, Option.some "lbl", PyVal.none, Callback.emptyOnPress, true⟩

/-- Two-slot page for the C4 witness: slot 0 assigned, slot 1 empty. -/
def pStyleEx : Page := ⟨"p", [Option.some kStyleEx, Option.none]⟩

/-- Witness for C4 at a concrete page: slot 0 holds a pressed key with icon
set and label unset, slot 1 is empty. -/
theorem c4_witness :
    pStyleEx.get_key_style ((0 : Nat) : Int)
      = Except.ok ⟨Option.some "k", Option.some "on.png", Option.none⟩
    ∧ pStyleEx.get_key_style ((1 : Nat) : Int)
      = Except.ok ⟨Option.none, Option.none, Option.none⟩ :=
  ⟨(c4_get_key_style_variants pStyleEx 0).1 kStyleEx rfl,
   (c4_get_key_style_variants pStyleEx 1).2 rfl⟩

/-- C9 counterexample: the claim says every index outside `[0, len(slots))`,
including negative ones, fails with an IndexError-class condition.  On a
one-slot page the negative index -1 is outside that interval, yet
`get_key_style` returns a style (Python wraps negative indices), refuting the
claim as stated. -/
theorem c9_counterexample_negative_index :
    (Page.init "p" (1, 1)).get_key_style (-1)
      = Except.ok ⟨Option.none, Option.none, Option.none⟩
    ∧ ¬ ((Page.init "p" (1, 1)).get_key_style (-1)
      = Except.error PyErr.indexError) := by
  constructor
  · rfl
  · intro h
    rw [show (Page.init "p" (1, 1)).get_key_style (-1)
        = Except.ok (⟨Option.none, Option.none, Option.none⟩ : KeyStyle)
      from rfl] at h
    exact Except.noConfusion h

/-- C9 amended: `get_key_style` never raises for any index in
`[-len(slots), len(slots))` — in-range negative indices wrap from the end as
Python indexing does — and fails with IndexError exactly for indices below
`-len(slots)` or at/above `len(slots)`. -/
theorem c9_indexing_semantics (p : Page) (i : Int) :
    ((-(p.deck_keys.length : Int) ≤ i ∧ i < (p.deck_keys.length : Int)) →
      ∃ s, p.get_key_style i = Except.ok s)
    ∧ ((i < -(p.deck_keys.length : Int) ∨ (p.deck_keys.length : Int) ≤ i) →
      p.get_key_style i = Except.error PyErr.indexError) := by
  constructor
  · rintro ⟨h1, h2⟩
    obtain ⟨a, ha⟩ := pyIndex_ok_of_range h1 h2
    cases a with
    | none =>
        exact ⟨⟨Option.none, Option.none, Option.none⟩,
          by simp only [Page.get_key_style, ha]⟩
    | some k =>
        exact ⟨⟨Option.some k.name,
                if k.pressed then k.icon_pressed else k.icon_released,
                if k.pressed then k.label_pressed else k.label_released⟩,
          by simp only [Page.get_key_style, ha]⟩
  · intro h
    simp only [Page.get_key_style, pyIndex_error_of_out h]

/-- Witness for C9 at a one-slot page: index 0 is in range and yields a style,
index 5 is out of range and yields IndexError. -/
theorem c9_witness :
    (∃ s, (Page.init "p" (1, 1)).get_key_style 0 = Except.ok s)
    ∧ (Page.init "p" (1, 1)).get_key_style 5
        = Except.error PyErr.indexError :=
  ⟨(c9_indexing_semantics (Page.init "p" (1, 1)) 0).1 (by decide),
   (c9_indexing_semantics (Page.init "p" (1, 1)) 5).2 (by decide)⟩

/-- C2: on a folder-type Key whose state names a page, the press event leaves
`current_page` unchanged and the subsequent release event sets `current_page`
to the page name stored in the Key's state, whatever the rendering outcome. -/
theorem c2_folder_navigation (ext : ExtFun) (fs : List String)
    (dims : Nat × Nat) (m : Mgr) (cp target : String) (page : Page)
    (idx : Nat) (k : Key)
    (hcp : m.current_page = PyVal.str cp)
    (hpg : assocGet m.page_stash cp = Option.some page)
    (hlt : idx < page.deck_keys.length)
    (hk : page.deck_keys.get ⟨idx, hlt⟩ = Option.some k)
    (hcb : k.on_press_fun = Callback.folderChange)
    (hst : k.state = PyVal.str target) :
    (key_change_callback ext fs dims true m (idx : Int) true).mgr.current_page
      = m.current_page
    ∧ (key_change_callback ext fs dims true
        (key_change_callback ext fs dims true m (idx : Int) true).mgr
        (idx : Int) false).mgr.current_page
      = PyVal.str target := by
  have e1 := kcc_assigned ext fs dims m cp page idx k true hcp hpg hlt hk
  simp only [runCallback, hcb, if_true, eq_self_iff_true] at e1
  set k1 : Key :=
    ({ k with on_press_fun := Callback.folderChange, pressed := true })
    with hk1d
  set pg1 : Page :=
    { page with deck_keys := (page.deck_keys.set idx (Option.some k1)) }
    with hpg1d
  set m1 : Mgr := { m with page_stash := (assocSet m.page_stash cp pg1) }
    with hm1d
  have hmgr1 : (key_change_callback ext fs dims true m (idx : Int) true).mgr
      = m1 := by
    rw [e1]
  have hcp1 : m1.current_page = PyVal.str cp := by
    rw [hm1d]; exact hcp
  have hpg1 : assocGet m1.page_stash cp = Option.some pg1 := by
    rw [hm1d]; exact assocGet_assocSet_self _ _ _
  have hlt1 : idx < pg1.deck_keys.length := by
    rw [hpg1d]; simpa using hlt
  have hk1 : pg1.deck_keys.get ⟨idx, hlt1⟩ = Option.some k1 := by
    simp [hpg1d]
  have e2 := kcc_assigned ext fs dims m1 cp pg1 idx k1 false
    hcp1 hpg1 hlt1 hk1
  simp only [hk1d, runCallback, hst, if_false, Bool.false_eq_true,
    reduceIte] at e2
  constructor
  · rw [hmgr1, hm1d]
  · rw [hmgr1, e2]

/-- Witness for C2 at a concrete one-key manager: a folder key to "pageB". -/
theorem c2_witness :
    (key_change_callback extId ["c/f.png"] (1, 1) true mNav
      ((0 : Nat) : Int) true).mgr.current_page = mNav.current_page
    ∧ (key_change_callback extId ["c/f.png"] (1, 1) true
        (key_change_callback extId ["c/f.png"] (1, 1) true mNav
          ((0 : Nat) : Int) true).mgr
        ((0 : Nat) : Int) false).mgr.current_page
      = PyVal.str "pageB" :=
  c2_folder_navigation extId ["c/f.png"] (1, 1) mNav "main" "pageB" pgNav 0
    (kNav "pageB") rfl rfl (by decide) rfl rfl rfl

/-- C5 counterexample: the claim says the page switch validates the target
name against the PageStore and raises at the point of the switch.  At a
concrete state whose store lacks "ghost", the folder-change callback — the
only page-switching code — succeeds (no raise) and leaves the dangling name
in `current_page`. -/
theorem c5_counterexample_unvalidated_switch :
    runCallback extId (kNav "ghost") mNav
      = ({ mNav with current_page := PyVal.str "ghost" }, Except.ok ())
    ∧ assocGet mNav.page_stash "ghost" = Option.none :=
  ⟨rfl, rfl⟩

/-- C5 amended: switching to a page name absent from the store is an
unvalidated assignment inside the folder callback; the Manager is left
holding the dangling `current_page`, and the failure surfaces loudly in the
same event's render pass as a KeyError when the missing page is looked up. -/
theorem c5_dangling_page_fails_in_render (ext : ExtFun) (fs : List String)
    (dims : Nat × Nat) (m : Mgr) (cp g : String) (page : Page)
    (idx : Nat) (k : Key)
    (hn : 0 < dims.1 * dims.2)
    (hcp : m.current_page = PyVal.str cp)
    (hpg : assocGet m.page_stash cp = Option.some page)
    (hlt : idx < page.deck_keys.length)
    (hk : page.deck_keys.get ⟨idx, hlt⟩ = Option.some k)
    (hcb : k.on_press_fun = Callback.folderChange)
    (hst : k.state = PyVal.str g)
    (hg : assocGet m.page_stash g = Option.none) :
    (key_change_callback ext fs dims true m (idx : Int) false).mgr.current_page
      = PyVal.str g
    ∧ (key_change_callback ext fs dims true m (idx : Int) false).result
      = Except.error PyErr.keyError := by
  have e := kcc_assigned ext fs dims m cp page idx k false hcp hpg hlt hk
  simp only [runCallback, hcb, hst, if_false, Bool.false_eq_true,
    reduceIte] at e
  set k1 : Key := ({ k with state := PyVal.str g, on_press_fun := Callback.folderChange, pressed := false }) with hk1d
  set pg1 : Page := ({ page with deck_keys := (page.deck_keys.set idx (Option.some k1)) }) with hpg1d
  set m2 : Mgr := ({ m with page_stash := (assocSet m.page_stash cp pg1), current_page := PyVal.str g }) with hm2d
  have hgcp : g ≠ cp := by
    intro hgc
    rw [hgc, hpg] at hg
    exact Option.noConfusion hg
  have hcur2 : m2.current_page = PyVal.str g := by rw [hm2d]
  have hg2 : assocGet m2.page_stash g = Option.none := by
    rw [hm2d]
    exact (assocGet_assocSet_ne m.page_stash cp g pg1 hgcp).trans hg
  have himg0 : update_key_image fs dims m2 ((0 : Nat) : Int)
      = Except.error PyErr.keyError := by
    have h0n : ((0 : Nat) : Int) < ((dims.1 * dims.2 : Nat) : Int) := by
      exact_mod_cast hn
    simp only [update_key_image, if_pos h0n, hcur2, hg2]
  have hupd : update_keys fs dims m2 = Except.error PyErr.keyError := by
    obtain ⟨n', hn'⟩ : ∃ n', dims.1 * dims.2 = n' + 1 :=
      ⟨dims.1 * dims.2 - 1, by omega⟩
    rw [update_keys, hn', List.range_succ_eq_map]
    simp only [mapExceptList, himg0]
  constructor
  · rw [e]
  · rw [e]
    rw [show (EventOutcome.mk m2 (update_keys fs dims m2)
        [EvtAction.cbRun k.name,
         EvtAction.render m2.current_page
           (List.range (dims.1 * dims.2))]).result
      = update_keys fs dims m2 from rfl]
    exact hupd

/-- One-slot page holding a folder key to the missing page "ghost". -/
def pgGhost : Page := ⟨"main", [Option.some (kNav "ghost")]⟩

/-- Manager whose store lacks the "ghost" page targeted by its folder key. -/
def mGhost : Mgr := ⟨"c", [("main", pgGhost)], PyVal.str "main"⟩

/-- Witness for C5 amended at a concrete manager with a dangling folder key. -/
theorem c5_witness :
    (key_change_callback extId [] (1, 1) true mGhost
      ((0 : Nat) : Int) false).mgr.current_page = PyVal.str "ghost"
    ∧ (key_change_callback extId [] (1, 1) true mGhost
        ((0 : Nat) : Int) false).result = Except.error PyErr.keyError :=
  c5_dangling_page_fails_in_render extId [] (1, 1) mGhost "main" "ghost"
    pgGhost 0 (kNav "ghost") (by decide) rfl rfl (by decide) rfl rfl rfl rfl

/-- The outcome assembled by the tail of `__key_change_callback` once the
callback has produced `r`: a callback raise propagates with no render; a
normal return is followed by exactly one full render pass of the manager
state the callback produced. -/
def after_callback (fs : List String) (dims : Nat × Nat) (nm : String)
    (r : Mgr × Except PyErr Unit) : EventOutcome :=
  ⟨r.1,
   match r.2 with
   | Except.error e => Except.error e
   | Except.ok _ => update_keys fs dims r.1,
   match r.2 with
   | Except.error _ => [EvtAction.cbRun nm]
   | Except.ok _ =>
       [EvtAction.cbRun nm,
        EvtAction.render r.1.current_page (List.range (dims.1 * dims.2))]⟩

/-- Characterization of one event on an assigned slot, phrased for an
arbitrary raw (possibly negative) index via the successful indexing and
slot-assignment reads. -/
theorem kcc_assigned_core (ext : ExtFun) (fs : List String)
    (dims : Nat × Nat) (m : Mgr) (cp : String) (page : Page) (key : Int)
    (k : Key) (keys' : List (Option Key)) (st : Bool)
    (hcp : m.current_page = PyVal.str cp)
    (hpg : assocGet m.page_stash cp = Option.some page)
    (hidx : pyIndex page.deck_keys key = Except.ok (Option.some k))
    (hset : pyListSet page.deck_keys key
      (Option.some { k with pressed := st }) = Except.ok keys') :
    key_change_callback ext fs dims true m key st =
      after_callback fs dims k.name
        (runCallback ext { k with pressed := st }
          { m with page_stash := (assocSet m.page_stash cp
              { page with deck_keys := keys' }) }) := by
  have hidx' := pyListSet_ok_pyIndex hset
  simp only [key_change_callback, if_true, eq_self_iff_true, hcp, hpg, hidx,
    hset, page_on_press, hidx', after_callback]
  generalize (runCallback ext ({ k with pressed := st })
      ({ config_path := m.config_path,
         page_stash := (assocSet m.page_stash cp
           ({ page with deck_keys := keys' })),
         current_page := PyVal.str cp } : Mgr)) = r
  obtain ⟨m2, res⟩ := r
  cases res with
  | error e => rfl
  | ok u =>
      cases update_keys fs dims m2 <;> rfl

/-- C3: whenever an event completes normally, the full-page renderer ran
exactly once, strictly after the Key's callback, iterating every slot index
of whatever page is current at render start — i.e. the page store and page
cursor as the callback left them, so a switch performed by the callback is
reflected in the render. -/
theorem c3_render_once_after_callback (ext : ExtFun) (fs : List String)
    (dims : Nat × Nat) (m mf : Mgr) (key : Int) (st : Bool)
    (imgs : List DeckImage) (tr : List EvtAction)
    (h : key_change_callback ext fs dims true m key st
      = ⟨mf, Except.ok imgs, tr⟩) :
    ∃ kname, tr = [EvtAction.cbRun kname,
        EvtAction.render mf.current_page (List.range (dims.1 * dims.2))]
      ∧ update_keys fs dims mf = Except.ok imgs := by
  rcases hcpm : m.current_page with _ | cp | fn
  · have hx : key_change_callback ext fs dims true m key st
        = ⟨m, Except.error PyErr.keyError, []⟩ := by
      simp [key_change_callback, hcpm]
    rw [hx] at h
    simp at h
  · rcases hpgm : assocGet m.page_stash cp with _ | page
    · have hx : key_change_callback ext fs dims true m key st
          = ⟨m, Except.error PyErr.keyError, []⟩ := by
        simp [key_change_callback, hcpm, hpgm]
      rw [hx] at h
      simp at h
    · rcases hidxm : pyIndex page.deck_keys key with e | ko
      · have hx : key_change_callback ext fs dims true m key st
            = ⟨m, Except.error e, []⟩ := by
          simp [key_change_callback, hcpm, hpgm, hidxm]
        rw [hx] at h
        simp at h
      · rcases ko with _ | k
        · have hx : key_change_callback ext fs dims true m key st
              = ⟨m, Except.error PyErr.attributeError, []⟩ := by
            simp [key_change_callback, hcpm, hpgm, hidxm]
          rw [hx] at h
          simp at h
        · rcases hsetm : pyListSet page.deck_keys key
              (Option.some { k with pressed := st }) with e | keys'
          · have hx : key_change_callback ext fs dims true m key st
                = ⟨m, Except.error e, []⟩ := by
              simp [key_change_callback, hcpm, hpgm, hidxm, hsetm]
            rw [hx] at h
            simp at h
          · have ecore := kcc_assigned_core ext fs dims m cp page key k
              keys' st hcpm hpgm hidxm hsetm
            rw [ecore] at h
            rcases hrc : runCallback ext ({ k with pressed := st }) ({ m with page_stash := (assocSet m.page_stash cp ({ page with deck_keys := keys' })) }) with ⟨m2, res⟩
            rw [hrc] at h
            cases res with
            | error e => simp [after_callback] at h
            | ok u =>
                simp only [after_callback] at h
                rw [EventOutcome.mk.injEq] at h
                obtain ⟨hm, hres, htr⟩ := h
                subst hm
                exact ⟨k.name, htr.symm, hres⟩
  · have hx : key_change_callback ext fs dims true m key st
        = ⟨m, Except.error PyErr.typeError, []⟩ := by
      simp [key_change_callback, hcpm]
    rw [hx] at h
    simp at h

/-- Manager state after the press event on `mNav`: the folder key's pressed
flag is set. -/
def mNavPressed : Mgr :=
  ⟨"c",
   [("main", ⟨"main", [Option.some ⟨"nav", Option.some "f.png",
      Option.some "f.png", Option.some "go", Option.some "go",
      PyVal.str "pageB", Callback.folderChange, true⟩]⟩),
    ("pageB", ⟨"pageB", [Option.none]⟩)],
   PyVal.str "main"⟩

/-- Witness for C3 at a concrete successful event on `mNav`. -/
theorem c3_witness :
    ∃ kname,
      ([EvtAction.cbRun "nav",
        EvtAction.render (PyVal.str "main") (List.range (1 * 1))]
        : List EvtAction)
        = [EvtAction.cbRun kname,
           EvtAction.render mNavPressed.current_page (List.range (1 * 1))]
      ∧ update_keys ["c/f.png"] (1, 1) mNavPressed
        = Except.ok [⟨Option.some "c/f.png", Option.some "go"⟩] :=
  c3_render_once_after_callback extId ["c/f.png"] (1, 1) mNav mNavPressed 0
    true [⟨Option.some "c/f.png", Option.some "go"⟩]
    [EvtAction.cbRun "nav",
     EvtAction.render (PyVal.str "main") (List.range (1 * 1))] rfl

/-- C7: an assigned Key whose selected icon resolves to a path missing from
the filesystem makes the single-slot renderer raise IOError, and the whole
render pass over that page aborts with an error rather than degrading to a
partial result. -/
theorem c7_missing_icon_aborts_render (fs : List String) (dims : Nat × Nat)
    (m : Mgr) (cp : String) (page : Page) (j : Nat) (k : Key) (icon : String)
    (hcp : m.current_page = PyVal.str cp)
    (hpg : assocGet m.page_stash cp = Option.some page)
    (hj : j < dims.1 * dims.2)
    (hidx : pyIndex page.deck_keys (j : Int) = Except.ok (Option.some k))
    (hico : (if k.pressed then k.icon_pressed else k.icon_released)
      = Option.some icon)
    (hfs : ¬ joinPath m.config_path icon ∈ fs) :
    update_key_image fs dims m (j : Int) = Except.error PyErr.ioError
    ∧ ∃ e, update_keys fs dims m = Except.error e := by
  have hjn : ((j : Nat) : Int) < ((dims.1 * dims.2 : Nat) : Int) := by
    exact_mod_cast hj
  have himg : update_key_image fs dims m (j : Int)
      = Except.error PyErr.ioError := by
    simp only [update_key_image, if_pos hjn, hcp, hpg, hidx,
      Page.get_key_style, hico, if_neg hfs]
  refine ⟨himg, ?_⟩
  have hmem : j ∈ List.range (dims.1 * dims.2) := List.mem_range.mpr hj
  rw [update_keys]
  exact mapExceptList_error_of_mem
    (fun i : Nat => update_key_image fs dims m (i : Int)) hmem himg

/-- An assigned key whose icon paths are missing from disk. -/
def kMiss : Key :=
  Key.init "k" (Option.some "m.png") (Option.some "m.png") Option.none
    Option.none PyVal.none Callback.emptyOnPress

/-- One-slot page holding `kMiss`. -/
def pgMiss : Page := ⟨"main", [Option.some kMiss]⟩

/-- Manager on `pgMiss`. -/
def mMiss : Mgr := ⟨"c", [("main", pgMiss)], PyVal.str "main"⟩

/-- Witness for C7 on an empty filesystem. -/
theorem c7_witness :
    update_key_image [] (1, 1) mMiss ((0 : Nat) : Int)
      = Except.error PyErr.ioError
    ∧ ∃ e, update_keys [] (1, 1) mMiss = Except.error e :=
  c7_missing_icon_aborts_render [] (1, 1) mMiss "main" pgMiss 0 kMiss "m.png"
    rfl rfl (by decide) rfl rfl (by decide)

/-- C10: an assigned slot whose selected icon reference is None (the
STANDARD_ICON default) makes the per-key render raise TypeError while joining
the icon path, for every filesystem — i.e. before the file-existence check;
and conversely a successful render producing the blank canvas (null icon)
can only come from an empty slot, so every assigned Key needs a non-null
icon for the pass to succeed. -/
theorem c10_null_icon_assigned_slot_typeerror (dims : Nat × Nat) :
    (∀ (fs : List String) (m : Mgr) (cp : String) (page : Page) (j : Nat)
      (k : Key),
      m.current_page = PyVal.str cp →
      assocGet m.page_stash cp = Option.some page →
      j < dims.1 * dims.2 →
      pyIndex page.deck_keys (j : Int) = Except.ok (Option.some k) →
      (if k.pressed then k.icon_pressed else k.icon_released) = Option.none →
      update_key_image fs dims m (j : Int) = Except.error PyErr.typeError)
    ∧ (∀ (fs : List String) (m : Mgr) (j : Int) (img : DeckImage),
      update_key_image fs dims m j = Except.ok img →
      img.icon = Option.none →
      ∃ cp page, m.current_page = PyVal.str cp
        ∧ assocGet m.page_stash cp = Option.some page
        ∧ pyIndex page.deck_keys j = Except.ok Option.none) := by
  constructor
  · intro fs m cp page j k hcp hpg hj hidx hico
    have hjn : ((j : Nat) : Int) < ((dims.1 * dims.2 : Nat) : Int) := by
      exact_mod_cast hj
    simp only [update_key_image, if_pos hjn, hcp, hpg, hidx,
      Page.get_key_style, hico]
  · intro fs m j img hok hicon
    by_cases hjn : j < ((dims.1 * dims.2 : Nat) : Int)
    · rw [update_key_image, if_pos hjn] at hok
      rcases hcpm : m.current_page with _ | cp | fn
      · simp only [hcpm] at hok
        exact Except.noConfusion hok
      · simp only [hcpm] at hok
        rcases hpgm : assocGet m.page_stash cp with _ | page
        · simp only [hpgm] at hok
          exact Except.noConfusion hok
        · simp only [hpgm] at hok
          rcases hidxm : pyIndex page.deck_keys j with e | ko
          · simp only [hidxm] at hok
            exact Except.noConfusion hok
          · rcases ko with _ | k
            · exact ⟨cp, page, rfl, hpgm, hidxm⟩
            · simp only [hidxm, Page.get_key_style] at hok
              rcases hicoer : (if k.pressed then k.icon_pressed
                  else k.icon_released) with _ | icon
              · simp only [hicoer] at hok
                exact Except.noConfusion hok
              · simp only [hicoer] at hok
                by_cases hin : joinPath m.config_path icon ∈ fs
                · simp only [if_pos hin] at hok
                  rw [Except.ok.injEq] at hok
                  rw [← hok] at hicon
                  simp at hicon
                · simp only [if_neg hin] at hok
                  exact Except.noConfusion hok
      · simp only [hcpm] at hok
        exact Except.noConfusion hok
    · rw [update_key_image, if_neg hjn] at hok
      simp at hok

/-- A key with the STANDARD_ICON (None) defaults for both icon variants. -/
def kNullIcon : Key :=
  Key.init "k" Option.none Option.none Option.none Option.none PyVal.none
    Callback.emptyOnPress

/-- One-slot page holding `kNullIcon`. -/
def pgNull : Page := ⟨"main", [Option.some kNullIcon]⟩

/-- Manager on `pgNull`. -/
def mNull : Mgr := ⟨"c", [("main", pgNull)], PyVal.str "main"⟩

/-- Witness for C10: the assigned null-icon slot raises TypeError even though
the filesystem is nonempty. -/
theorem c10_witness :
    update_key_image ["c/x.png"] (1, 1) mNull ((0 : Nat) : Int)
      = Except.error PyErr.typeError :=
  (c10_null_icon_assigned_slot_typeerror (1, 1)).1 ["c/x.png"] mNull "main"
    pgNull 0 kNullIcon rfl rfl (by decide) rfl rfl

/-- A key entry with only `img` set. -/
def keyImgOnly : KeyNode :=
  KeyNode.mk "a" KeyKind.empty (Option.some "i.png") Option.none Option.none
    Option.none Option.none Option.none

/-- A resolved parser environment with no configured defaults. -/
def envPlain : ParserEnv :=
  ⟨"up.png", "folder.png", Option.none, Option.some "key"⟩

/-- A config whose top level has `default_img` but no `default_keys` entry. -/
def cfgBadDefault : TopConfig :=
  ⟨PageNode.mk "r" KeyNodes.nil, "up.png", "folder.png",
   Option.some "d.png", Option.none, Option.none⟩

/-- C6: the `img`-only defaulting works as claimed (identical pressed and
released icons), but the configured-default tier is broken in the code: with
`default_img` present and no `default_keys` entry, line 401 reads
`json_obj["default_keys"]` and the Parser raises KeyError instead of using
the configured default icon. -/
theorem c6_default_img_keyerror_eval :
    (resolveImgOn envPlain keyImgOnly = Option.some "i.png"
      ∧ resolveImgOff envPlain keyImgOnly = Option.some "i.png")
    ∧ resolve_default_img cfgBadDefault = Except.error PyErr.keyError
    ∧ parser_build "c" (2, 3) cfgBadDefault
      = Except.error PyErr.keyError :=
  ⟨⟨rfl, rfl⟩, rfl, rfl⟩

/-- Writing a slot of page `pname` does not disturb other stash entries. -/
theorem stashWriteSlot_preserves (stash : Stash) (pname : String) (idx : Nat)
    (key : Key) (n : String) (hne : n ≠ pname) :
    assocGet (stashWriteSlot stash pname idx key) n = assocGet stash n := by
  rw [stashWriteSlot]
  cases assocGet stash pname with
  | none => rfl
  | some pg => exact assocGet_assocSet_ne _ _ _ _ hne

mutual
/-- Materializing a page tree only touches the stash entries named in the
tree: any other name keeps its binding. -/
theorem populate_pages_preserves (env : ParserEnv) (dims : Nat × Nat)
    (stash : Stash) (q : PageNode) (par : Option String) (n : String)
    (hn : ¬ n ∈ q.treeNames) :
    assocGet (populate_pages env dims stash q par) n = assocGet stash n := by
  match q with
  | PageNode.mk qname qkeys =>
    have hnq : n ≠ qname := by
      intro h
      exact hn (by rw [PageNode.treeNames, h]; exact List.mem_cons_self _ _)
    have hnsub : ¬ n ∈ KeyNodes.subNames qkeys := by
      intro h
      exact hn (by rw [PageNode.treeNames]; exact List.mem_cons_of_mem _ h)
    cases par with
    | none =>
        simp only [populate_pages]
        rw [populate_keys_preserves env dims _ qname _ 0 qkeys n hnq hnsub]
        exact assocGet_assocSet_ne _ _ _ _ hnq
    | some p =>
        simp only [populate_pages]
        rw [populate_keys_preserves env dims _ qname _ 0 qkeys n hnq hnsub]
        rw [stashWriteSlot_preserves _ _ _ _ _ hnq]
        exact assocGet_assocSet_ne _ _ _ _ hnq
termination_by sizeOf q

/-- One loop iteration only touches this page's entry and the entries of a
folder entry's sub-tree. -/
theorem populate_one_preserves (env : ParserEnv) (dims : Nat × Nat)
    (stash : Stash) (pname : String) (index : Nat) (k : KeyNode) (n : String)
    (hqn : n ≠ pname) (hns : ¬ n ∈ KeyNode.subTree k) :
    assocGet (populate_one env dims stash pname index k) n
      = assocGet stash n := by
  match k with
  | KeyNode.mk kname (KeyKind.folder sub) i1 i2 i3 l1 l2 l3 =>
      have hnsub : ¬ n ∈ sub.treeNames := by
        intro h
        exact hns (by rw [KeyNode.subTree]; exact h)
      simp only [populate_one]
      rw [stashWriteSlot_preserves _ _ _ _ _ hqn]
      exact populate_pages_preserves env dims stash sub
        (Option.some pname) n hnsub
  | KeyNode.mk kname KeyKind.empty i1 i2 i3 l1 l2 l3 =>
      simp only [populate_one]
      exact stashWriteSlot_preserves _ _ _ _ _ hqn
  | KeyNode.mk kname (KeyKind.function f) i1 i2 i3 l1 l2 l3 =>
      simp only [populate_one]
      exact stashWriteSlot_preserves _ _ _ _ _ hqn
termination_by sizeOf k

/-- The key-population loop of a page only touches that page's entry and the
entries of the sub-trees of its folder keys. -/
theorem populate_keys_preserves (env : ParserEnv) (dims : Nat × Nat)
    (stash : Stash) (qname : String) (hp : Bool) (i : Nat) (ks : KeyNodes)
    (n : String) (hqn : n ≠ qname) (hns : ¬ n ∈ ks.subNames) :
    assocGet (populate_keys env dims stash qname hp i ks) n
      = assocGet stash n := by
  match ks with
  | KeyNodes.nil => simp only [populate_keys]
  | KeyNodes.cons k rest =>
    have hnrest : ¬ n ∈ KeyNodes.subNames rest := by
      intro h
      exact hns (by rw [KeyNodes.subNames]; exact List.mem_append_right _ h)
    have hnk : ¬ n ∈ KeyNode.subTree k := by
      intro h
      exact hns (by rw [KeyNodes.subNames]; exact List.mem_append_left _ h)
    simp only [populate_keys]
    rw [populate_keys_preserves env dims _ qname hp (i + 1) rest n hqn hnrest]
    by_cases hidx : (if hp then i + 1 else i) < dims.1 * dims.2
    · rw [if_pos hidx]
      exact populate_one_preserves env dims stash qname _ k n hqn hnk
    · rw [if_neg hidx]
termination_by sizeOf ks
end

/-- Setting a list element at a positive index keeps the head. -/
theorem head_set_succ {α : Type} (l : List α) (j : Nat) (v : α) :
    (l.set (j + 1) v).head? = l.head? := by
  cases l <;> rfl

/-- One loop iteration on this page's own entry sets exactly one slot of the
page bound under the name. -/
theorem populate_one_slot (env : ParserEnv) (dims : Nat × Nat) (stash : Stash)
    (pname : String) (index : Nat) (k : KeyNode) (pg : Page)
    (hq : ¬ pname ∈ KeyNode.subTree k)
    (hpg : assocGet stash pname = Option.some pg) :
    ∃ key, assocGet (populate_one env dims stash pname index k) pname
      = Option.some { pg with deck_keys := (pg.deck_keys.set index
          (Option.some key)) } := by
  match k with
  | KeyNode.mk kname (KeyKind.folder sub) i1 i2 i3 l1 l2 l3 =>
      have hqsub : ¬ pname ∈ sub.treeNames := by
        intro h
        exact hq (by rw [KeyNode.subTree]; exact h)
      have hpgF : assocGet (populate_pages env dims stash sub
          (Option.some pname)) pname = Option.some pg := by
        rw [populate_pages_preserves env dims stash sub
          (Option.some pname) pname hqsub]
        exact hpg
      exact ⟨_, by
        simp only [populate_one, stashWriteSlot, hpgF]
        exact assocGet_assocSet_self _ _ _⟩
  | KeyNode.mk kname KeyKind.empty i1 i2 i3 l1 l2 l3 =>
      exact ⟨_, by
        simp only [populate_one, stashWriteSlot, hpg]
        exact assocGet_assocSet_self _ _ _⟩
  | KeyNode.mk kname (KeyKind.function f) i1 i2 i3 l1 l2 l3 =>
      exact ⟨_, by
        simp only [populate_one, stashWriteSlot, hpg]
        exact assocGet_assocSet_self _ _ _⟩

/-- The key-population loop of a page that has a parent writes only slot
indices at least 1 of its own page entry (and other pages' entries), so the
entry's slot 0 — and its presence — survive the loop. -/
theorem populate_keys_keeps_slot0 (env : ParserEnv) (dims : Nat × Nat)
    (stash : Stash) (qname : String) (i : Nat) (ks : KeyNodes) (pg : Page)
    (hq : ¬ qname ∈ ks.subNames)
    (hpg : assocGet stash qname = Option.some pg) :
    ∃ pg', assocGet (populate_keys env dims stash qname true i ks) qname
        = Option.some pg'
      ∧ pg'.deck_keys.head? = pg.deck_keys.head? := by
  match ks with
  | KeyNodes.nil =>
      simp only [populate_keys]
      exact ⟨pg, hpg, rfl⟩
  | KeyNodes.cons k rest =>
    have hqrest : ¬ qname ∈ KeyNodes.subNames rest := by
      intro h
      exact hq (by rw [KeyNodes.subNames]; exact List.mem_append_right _ h)
    have hqk : ¬ qname ∈ KeyNode.subTree k := by
      intro h
      exact hq (by rw [KeyNodes.subNames]; exact List.mem_append_left _ h)
    simp only [populate_keys, if_true]
    by_cases hidx : i + 1 < dims.1 * dims.2
    · rw [if_pos hidx]
      obtain ⟨key, hw⟩ := populate_one_slot env dims stash qname (i + 1) k pg
        hqk hpg
      obtain ⟨pg', hpg', hhd⟩ := populate_keys_keeps_slot0 env dims _ qname
        (i + 1) rest _ hqrest hw
      refine ⟨pg', hpg', ?_⟩
      rw [hhd]
      exact head_set_succ _ _ _
    · rw [if_neg hidx]
      exact populate_keys_keeps_slot0 env dims stash qname (i + 1) rest pg
        hqrest hpg

/-- An `empty`-type key node with no overrides. -/
def emptyKN (n : String) : KeyNode :=
  KeyNode.mk n KeyKind.empty Option.none Option.none Option.none Option.none
    Option.none Option.none

/-- The C8 round-trip tree: one root page of 6 keys — 4 empty, 1 folder to
"sub" (itself empty), 1 function. -/
def rootTree : PageNode :=
  PageNode.mk "root"
    (KeyNodes.cons (emptyKN "e1") (KeyNodes.cons (emptyKN "e2")
      (KeyNodes.cons (emptyKN "e3") (KeyNodes.cons (emptyKN "e4")
        (KeyNodes.cons (KeyNode.mk "to_sub"
            (KeyKind.folder (PageNode.mk "sub" KeyNodes.nil))
            Option.none Option.none Option.none Option.none Option.none
            Option.none)
          (KeyNodes.cons (KeyNode.mk "fx" (KeyKind.function "go")
              Option.none Option.none Option.none Option.none Option.none
              Option.none)
            KeyNodes.nil))))))

/-- The C8 config document around `rootTree`, with no optional defaults. -/
def cfgEx : TopConfig :=
  ⟨rootTree, "up.png", "folder.png", Option.none, Option.none, Option.none⟩

/-- C8: building the PageStore from `cfgEx` on a 2x3 device yields exactly 2
pages; the root page (renamed "main") has as many slots as the device has
keys; and "sub"'s slot 0 is the auto-inserted "up" folder key whose state is
the root page's name.  In general, materializing any page node under a parent
(provided the node's own name is not reused inside its own sub-trees, as the
unique-page-name invariant guarantees, and the device has at least one key)
leaves its store entry with the up-key — wired to the folder-navigation
callback with the parent name as state — at slot 0. -/
theorem c8_builder_roundtrip_and_up_keys :
    ((parser_build "c" (2, 3) cfgEx).toOption.map
        (fun mgr => mgr.page_stash.length) = Option.some 2
      ∧ (parser_build "c" (2, 3) cfgEx).toOption.map
          (fun mgr => (assocGet mgr.page_stash "main").map
            (fun pg => pg.deck_keys.length))
        = Option.some (Option.some (2 * 3))
      ∧ (parser_build "c" (2, 3) cfgEx).toOption.map
          (fun mgr => (assocGet mgr.page_stash "sub").map
            (fun pg => pg.deck_keys.head?))
        = Option.some (Option.some (Option.some (Option.some
            (Key.init "sub0" (Option.some "up.png") (Option.some "up.png")
              (Option.some "up") (Option.some "up") (PyVal.str "main")
              Callback.folderChange)))))
    ∧ (∀ (env : ParserEnv) (dims : Nat × Nat) (stash : Stash) (p : PageNode)
        (par : String),
        0 < dims.1 * dims.2 →
        ¬ PageNode.name p ∈ KeyNodes.subNames (PageNode.keys p) →
        ∃ pg, assocGet (populate_pages env dims stash p (Option.some par))
            (PageNode.name p) = Option.some pg
          ∧ pg.deck_keys.head? = Option.some (Option.some
              (Key.init (PageNode.name p ++ "0")
                (Option.some env.folder_up_img)
                (Option.some env.folder_up_img)
                (Option.some "up") (Option.some "up")
                (PyVal.str par) Callback.folderChange))) := by
  constructor
  · exact ⟨rfl, rfl, rfl⟩
  · intro env dims stash p par hn hname
    rcases p with ⟨pname, pkeys⟩
    simp only [PageNode.name, PageNode.keys] at hname ⊢
    simp only [populate_pages]
    have h1 : assocGet (assocSet stash pname (Page.init pname dims)) pname
        = Option.some (Page.init pname dims) := assocGet_assocSet_self _ _ _
    have h2 : assocGet (stashWriteSlot
        (assocSet stash pname (Page.init pname dims)) pname 0
        (Key.init (pname ++ "0")
          (Option.some env.folder_up_img) (Option.some env.folder_up_img)
          (Option.some "up") (Option.some "up")
          (PyVal.str par) Callback.folderChange)) pname
        = Option.some { Page.init pname dims with
            deck_keys := ((Page.init pname dims).deck_keys.set 0
              (Option.some (Key.init (pname ++ "0")
                (Option.some env.folder_up_img)
                (Option.some env.folder_up_img)
                (Option.some "up") (Option.some "up")
                (PyVal.str par) Callback.folderChange))) } := by
      simp only [stashWriteSlot, h1]
      exact assocGet_assocSet_self _ _ _
    obtain ⟨pg', hpg', hhd⟩ := populate_keys_keeps_slot0 env dims _ pname 0
      pkeys _ hname h2
    refine ⟨pg', hpg', ?_⟩
    rw [hhd]
    show ((List.replicate (dims.1 * dims.2) (Option.none : Option Key)).set 0
        (Option.some (Key.init (pname ++ "0")
          (Option.some env.folder_up_img) (Option.some env.folder_up_img)
          (Option.some "up") (Option.some "up")
          (PyVal.str par) Callback.folderChange))).head?
      = Option.some (Option.some (Key.init (pname ++ "0")
          (Option.some env.folder_up_img) (Option.some env.folder_up_img)
          (Option.some "up") (Option.some "up")
          (PyVal.str par) Callback.folderChange))
    obtain ⟨n', hn'⟩ : ∃ n', dims.1 * dims.2 = n' + 1 :=
      ⟨dims.1 * dims.2 - 1, by omega⟩
    rw [hn', List.replicate_succ]
    rfl

/-- Witness for C8's general up-key conjunct at a tiny concrete input. -/
theorem c8_witness :
    ∃ pg, assocGet (populate_pages envPlain (1, 1) []
        (PageNode.mk "x" KeyNodes.nil) (Option.some "par"))
        (PageNode.name (PageNode.mk "x" KeyNodes.nil)) = Option.some pg
      ∧ pg.deck_keys.head? = Option.some (Option.some
          (Key.init (PageNode.name (PageNode.mk "x" KeyNodes.nil) ++ "0")
            (Option.some envPlain.folder_up_img)
            (Option.some envPlain.folder_up_img)
            (Option.some "up") (Option.some "up")
            (PyVal.str "par") Callback.folderChange)) :=
  c8_builder_roundtrip_and_up_keys.2 envPlain (1, 1) []
    (PageNode.mk "x" KeyNodes.nil) "par" (by decide) (by decide)
